import Mathlib

/-!
Verification of the leave-management frontend state container
(`Front-end/src/context/LeaveContext.tsx`) and its remote API client
(`leaveService`).  The TypeScript code is shallowly embedded: the React
state of `LeaveProvider` becomes an explicit `State` record, each
asynchronous operation becomes a function parameterised by the outcome of
its remote call, and the synchronous prologue of every fetch (the
`setError(null)` executed before the first `await`) is split from its
settlement so that interleavings of the two concurrent fetches can be
stated faithfully.
-/

/-- A leave submission; only `status` matters to the aggregation logic,
the remaining fields are opaque to this core. -/
structure LeaveRequest where
  id : Nat
  status : String
  deriving DecidableEq, Repr

/-- A registered student; opaque beyond identity. -/
structure Student where
  id : Nat
  name : String
  deriving DecidableEq, Repr

/-- Command value sent to `/update_leave_status`. -/
structure LeaveStatusUpdate where
  leave_id : Nat
  status : String
  deriving DecidableEq, Repr

/-- Derived aggregate over the current leave-request collection. -/
structure StatusCount where
  pending : Nat
  approved : Nat
  rejected : Nat
  total : Nat
  deriving DecidableEq, Repr

/-- Payload of an AI-assistant query. -/
structure AIRequest where
  query : String
  deriving DecidableEq, Repr

/-- Response of an AI-assistant query. -/
structure AIResponse where
  answer : String
  deriving DecidableEq, Repr

/-- Response body of `/get_total_students`. -/
structure CountResponse where
  count : Nat
  deriving DecidableEq, Repr

/-- Response body of the message-returning POST endpoints. -/
structure MessageResponse where
  message : String
  deriving DecidableEq, Repr

/-- Body of the `requests.forEach` loop of `calculateStatusCounts`:
bump the bucket matching the request status, leave the record unchanged
on an unrecognized status. -/
def statusStep (c : StatusCount) (request : LeaveRequest) : StatusCount :=
  if request.status = "pending" then { c with pending := c.pending + 1 }
  else if request.status = "approved" then { c with approved := c.approved + 1 }
  else if request.status = "rejected" then { c with rejected := c.rejected + 1 }
  else c

/-- `calculateStatusCounts` from `LeaveContext.tsx`: start from zero
buckets with `total := requests.length`, then walk the collection. -/
def calculateStatusCounts (requests : List LeaveRequest) : StatusCount :=
  requests.foldl statusStep
    { pending := 0, approved := 0, rejected := 0, total := requests.length }

/-- The React state slices held by `LeaveProvider`. -/
structure State where
  leaveRequests : List LeaveRequest
  loading : Bool
  error : Option String
  allStudents : List Student
  statusCounts : StatusCount
  deriving DecidableEq, Repr

/-- The all-zero `StatusCount` used at mount and on fetch failure. -/
def zeroCounts : StatusCount :=
  { pending := 0, approved := 0, rejected := 0, total := 0 }

/-- `useState` initial values of `LeaveProvider` (lines 31-40). -/
def initialState : State :=
  { leaveRequests := [], loading := true, error := none,
    allStudents := [], statusCounts := zeroCounts }

/-- Error message set when fetching students fails. -/
def studentsFetchErrMsg : String :=
  "Failed to fetch students. Please try again later."

/-- Error message set when fetching leave requests fails. -/
def leaveFetchErrMsg : String :=
  "Failed to fetch leave requests. Please try again later."

/-- Error message set when a status update fails. -/
def updateErrMsg : String :=
  "Failed to update leave status. Please try again."

/-- Message of the error thrown by `useLeaveContext` outside a provider. -/
def hookErrMsg : String :=
  "useLeaveContext must be used within a LeaveProvider"

/-- Synchronous prologue of `fetchAllStudents`: `setError(null)` runs
before the remote result is known. -/
def fetchAllStudentsStart (s : State) : State := { s with error := none }

/-- Settlement of `fetchAllStudents` once the remote call resolves:
store the data on success; on failure set the generic message and reset
the collection to empty. -/
def fetchAllStudentsSettle (res : Except String (List Student)) (s : State) : State :=
  match res with
  | Except.ok data => { s with allStudents := data }
  | Except.error _ => { s with error := some studentsFetchErrMsg, allStudents := [] }

/-- The whole `fetchAllStudents` operation run in isolation. -/
def fetchAllStudents (res : Except String (List Student)) (s : State) : State :=
  fetchAllStudentsSettle res (fetchAllStudentsStart s)

/-- Synchronous prologue of `fetchLeaveRequests`: `setError(null)`. -/
def fetchLeaveRequestsStart (s : State) : State := { s with error := none }

/-- Settlement of `fetchLeaveRequests`: on success replace the
collection and recompute the counts; on failure set the generic message,
empty the collection and zero the counts. -/
def fetchLeaveRequestsSettle (res : Except String (List LeaveRequest)) (s : State) : State :=
  match res with
  | Except.ok data =>
      { s with leaveRequests := data, statusCounts := calculateStatusCounts data }
  | Except.error _ =>
      { s with error := some leaveFetchErrMsg, leaveRequests := [], statusCounts := zeroCounts }

/-- The whole `fetchLeaveRequests` operation run in isolation. -/
def fetchLeaveRequests (res : Except String (List LeaveRequest)) (s : State) : State :=
  fetchLeaveRequestsSettle res (fetchLeaveRequestsStart s)

/-- `Promise.all([fetchLeaveRequests(), fetchAllStudents()])`: both
synchronous prologues run before either call resolves; the Boolean picks
which fetch settles first.  Returns the joined final state. -/
def concurrentFetchRun (lres : Except String (List LeaveRequest))
    (sres : Except String (List Student)) (leaveSettlesFirst : Bool)
    (s : State) : State :=
  let s2 := fetchAllStudentsStart (fetchLeaveRequestsStart s)
  if leaveSettlesFirst then
    fetchAllStudentsSettle sres (fetchLeaveRequestsSettle lres s2)
  else
    fetchLeaveRequestsSettle lres (fetchAllStudentsSettle sres s2)

/-- The intermediate states observable while the joined fetch of
`concurrentFetchRun` is in flight, in execution order; the last element
is the joined final state. -/
def concurrentFetchStates (lres : Except String (List LeaveRequest))
    (sres : Except String (List Student)) (leaveSettlesFirst : Bool)
    (s : State) : List State :=
  let s1 := fetchLeaveRequestsStart s
  let s2 := fetchAllStudentsStart s1
  if leaveSettlesFirst then
    [s1, s2, fetchLeaveRequestsSettle lres s2,
     fetchAllStudentsSettle sres (fetchLeaveRequestsSettle lres s2)]
  else
    [s1, s2, fetchAllStudentsSettle sres s2,
     fetchLeaveRequestsSettle lres (fetchAllStudentsSettle sres s2)]

/-- Remote interactions observable from the state container. -/
inductive Event where
  | remoteUpdate
  | fetchLeave
  | fetchStudents
  deriving DecidableEq, Repr

/-- Result of running one container operation: the settled state, the
states observable while it was in flight, and the remote interactions it
performed. -/
structure OpRun where
  final : State
  intermediates : List State
  events : List Event

/-- `updateLeaveStatus(update)`: set loading, clear the error, send the
update; on success re-run both fetches concurrently, on failure set the
generic message; `finally` clears loading. -/
def updateLeaveStatusRun (upd : LeaveStatusUpdate) (updRes : Except String Unit)
    (lres : Except String (List LeaveRequest)) (sres : Except String (List Student))
    (leaveSettlesFirst : Bool) (s : State) : OpRun :=
  let s1 : State := { s with loading := true }
  let s2 : State := { s1 with error := none }
  match updRes with
  | Except.ok _ =>
      { final := { concurrentFetchRun lres sres leaveSettlesFirst s2 with loading := false },
        intermediates := s1 :: s2 :: concurrentFetchStates lres sres leaveSettlesFirst s2,
        events := [Event.remoteUpdate, Event.fetchLeave, Event.fetchStudents] }
  | Except.error _ =>
      { final := { s2 with error := some updateErrMsg, loading := false },
        intermediates := [s1, s2],
        events := [Event.remoteUpdate] }

/-- `initialFetch` of the mount effect: set loading, clear the error,
join both fetches, and clear loading only in the `finally`. -/
def initialFetchRun (lres : Except String (List LeaveRequest))
    (sres : Except String (List Student)) (leaveSettlesFirst : Bool)
    (s : State) : OpRun :=
  let s1 : State := { s with loading := true }
  let s2 : State := { s1 with error := none }
  { final := { concurrentFetchRun lres sres leaveSettlesFirst s2 with loading := false },
    intermediates := s1 :: s2 :: concurrentFetchStates lres sres leaveSettlesFirst s2,
    events := [Event.fetchLeave, Event.fetchStudents] }

/-- `useLeaveContext`: throw when the context value is undefined, return
the container value otherwise. -/
def useLeaveContext (ctx : Option State) : Except String State :=
  match ctx with
  | none => Except.error hookErrMsg
  | some c => Except.ok c

/-- The single HTTP call a `leaveService` operation issues, identified
by endpoint and payload (URL assembly is part of the opaque transport). -/
inductive ApiCall where
  | getAllLeaveRequests
  | getLeaveHistory (studentId : String) (status : Option String)
  | getLeaveHistoryByName (name : String) (status : Option String)
  | submitLeave (leaveRequest : LeaveRequest)
  | updateLeaveStatus (update : LeaveStatusUpdate)
  | registerStudent (student : Student)
  | aiQuery (request : AIRequest)
  | getTotalStudents
  | getAllStudents
  deriving DecidableEq, Repr

/-- Observable behaviour of one `leaveService` operation: its outcome,
the HTTP calls it issued, and the console-error lines it produced. -/
structure ServiceResult (α : Type) where
  result : Except String α
  calls : List ApiCall
  logs : List String
  deriving Repr

namespace leaveService

/-- `GET /get_all_leave_requests`, try/catch with log-and-rethrow. -/
def getAllLeaveRequests (resp : Except String (List LeaveRequest)) :
    ServiceResult (List LeaveRequest) :=
  match resp with
  | Except.ok data =>
      { result := Except.ok data, calls := [ApiCall.getAllLeaveRequests], logs := [] }
  | Except.error e =>
      { result := Except.error e, calls := [ApiCall.getAllLeaveRequests],
        logs := ["Error fetching leave requests:"] }

/-- `GET /get_leave_history/{id}[?status=]`, log-and-rethrow. -/
def getLeaveHistory (studentId : String) (status : Option String)
    (resp : Except String (List LeaveRequest)) : ServiceResult (List LeaveRequest) :=
  match resp with
  | Except.ok data =>
      { result := Except.ok data, calls := [ApiCall.getLeaveHistory studentId status],
        logs := [] }
  | Except.error e =>
      { result := Except.error e, calls := [ApiCall.getLeaveHistory studentId status],
        logs := ["Error fetching leave history for student " ++ studentId ++ ":"] }

/-- `GET /get_leave_history_by_name?name=[&status=]`, log-and-rethrow. -/
def getLeaveHistoryByName (name : String) (status : Option String)
    (resp : Except String (List LeaveRequest)) : ServiceResult (List LeaveRequest) :=
  match resp with
  | Except.ok data =>
      { result := Except.ok data,
        calls := [ApiCall.getLeaveHistoryByName name status], logs := [] }
  | Except.error e =>
      { result := Except.error e,
        calls := [ApiCall.getLeaveHistoryByName name status],
        logs := ["Error fetching leave history for student name " ++ name ++ ":"] }

/-- `POST /submit_leave`, log-and-rethrow. -/
def submitLeaveRequest (leaveRequest : LeaveRequest)
    (resp : Except String MessageResponse) : ServiceResult MessageResponse :=
  match resp with
  | Except.ok data =>
      { result := Except.ok data, calls := [ApiCall.submitLeave leaveRequest], logs := [] }
  | Except.error e =>
      { result := Except.error e, calls := [ApiCall.submitLeave leaveRequest],
        logs := ["Error submitting leave request:"] }

/-- `POST /update_leave_status`, log-and-rethrow. -/
def updateLeaveStatus (update : LeaveStatusUpdate)
    (resp : Except String MessageResponse) : ServiceResult MessageResponse :=
  match resp with
  | Except.ok data =>
      { result := Except.ok data, calls := [ApiCall.updateLeaveStatus update], logs := [] }
  | Except.error e =>
      { result := Except.error e, calls := [ApiCall.updateLeaveStatus update],
        logs := ["Error updating leave status:"] }

/-- `POST /register_student`, log-and-rethrow. -/
def registerStudent (student : Student)
    (resp : Except String MessageResponse) : ServiceResult MessageResponse :=
  match resp with
  | Except.ok data =>
      { result := Except.ok data, calls := [ApiCall.registerStudent student], logs := [] }
  | Except.error e =>
      { result := Except.error e, calls := [ApiCall.registerStudent student],
        logs := ["Error registering student:"] }

/-- `POST /ai_query`, log-and-rethrow. -/
def sendAIQuery (request : AIRequest)
    (resp : Except String AIResponse) : ServiceResult AIResponse :=
  match resp with
  | Except.ok data =>
      { result := Except.ok data, calls := [ApiCall.aiQuery request], logs := [] }
  | Except.error e =>
      { result := Except.error e, calls := [ApiCall.aiQuery request],
        logs := ["Error sending AI query:"] }

/-- `GET /get_total_students`, log-and-rethrow. -/
def getTotalStudents (resp : Except String CountResponse) : ServiceResult CountResponse :=
  match resp with
  | Except.ok data =>
      { result := Except.ok data, calls := [ApiCall.getTotalStudents], logs := [] }
  | Except.error e =>
      { result := Except.error e, calls := [ApiCall.getTotalStudents],
        logs := ["Error fetching total students:"] }

/-- `GET /get_all_students`, log-and-rethrow. -/
def getAllStudents (resp : Except String (List Student)) : ServiceResult (List Student) :=
  match resp with
  | Except.ok data =>
      { result := Except.ok data, calls := [ApiCall.getAllStudents], logs := [] }
  | Except.error e =>
      { result := Except.error e, calls := [ApiCall.getAllStudents],
        logs := ["Error fetching all students:"] }

end leaveService

/-- The four-request collection named by the spec's concrete test. -/
def exampleRequests : List LeaveRequest :=
  [{ id := 1, status := "pending" }, { id := 2, status := "approved" },
   { id := 3, status := "approved" }, { id := 4, status := "rejected" }]

/-- The container invariant of §3: the stored counts are exactly the
aggregate of the stored collection. -/
def consistentCounts (s : State) : Prop :=
  s.statusCounts = calculateStatusCounts s.leaveRequests

theorem statusStep_total (c : StatusCount) (r : LeaveRequest) :
    (statusStep c r).total = c.total := by
  unfold statusStep
  split_ifs <;> rfl

theorem statusStep_pending (c : StatusCount) (r : LeaveRequest) :
    (statusStep c r).pending =
      if r.status = "pending" then c.pending + 1 else c.pending := by
  unfold statusStep
  split_ifs <;> simp_all

theorem statusStep_approved (c : StatusCount) (r : LeaveRequest) :
    (statusStep c r).approved =
      if r.status = "approved" then c.approved + 1 else c.approved := by
  unfold statusStep
  split_ifs <;> simp_all

theorem statusStep_rejected (c : StatusCount) (r : LeaveRequest) :
    (statusStep c r).rejected =
      if r.status = "rejected" then c.rejected + 1 else c.rejected := by
  unfold statusStep
  split_ifs <;> simp_all

theorem foldl_statusStep_total (l : List LeaveRequest) (c : StatusCount) :
    (l.foldl statusStep c).total = c.total := by
  induction l generalizing c with
  | nil => rfl
  | cons r t ih => rw [List.foldl_cons, ih, statusStep_total]

theorem foldl_statusStep_pending (l : List LeaveRequest) (c : StatusCount) :
    (l.foldl statusStep c).pending =
      c.pending + (l.filter (fun r => r.status == "pending")).length := by
  induction l generalizing c with
  | nil => simp
  | cons r t ih =>
      rw [List.foldl_cons, ih, statusStep_pending, List.filter_cons]
      by_cases h : r.status = "pending" <;> simp [h] <;> omega

theorem foldl_statusStep_approved (l : List LeaveRequest) (c : StatusCount) :
    (l.foldl statusStep c).approved =
      c.approved + (l.filter (fun r => r.status == "approved")).length := by
  induction l generalizing c with
  | nil => simp
  | cons r t ih =>
      rw [List.foldl_cons, ih, statusStep_approved, List.filter_cons]
      by_cases h : r.status = "approved" <;> simp [h] <;> omega

theorem foldl_statusStep_rejected (l : List LeaveRequest) (c : StatusCount) :
    (l.foldl statusStep c).rejected =
      c.rejected + (l.filter (fun r => r.status == "rejected")).length := by
  induction l generalizing c with
  | nil => simp
  | cons r t ih =>
      rw [List.foldl_cons, ih, statusStep_rejected, List.filter_cons]
      by_cases h : r.status = "rejected" <;> simp [h] <;> omega

theorem count_three_le (l : List LeaveRequest) :
    (l.filter (fun r => r.status == "pending")).length
      + (l.filter (fun r => r.status == "approved")).length
      + (l.filter (fun r => r.status == "rejected")).length ≤ l.length := by
  induction l with
  | nil => simp
  | cons r t ih =>
      simp only [List.filter_cons, List.length_cons]
      by_cases h1 : r.status = "pending" <;> by_cases h2 : r.status = "approved" <;>
        by_cases h3 : r.status = "rejected" <;> simp [h1, h2, h3] <;> omega

theorem calculateStatusCounts_fields (requests : List LeaveRequest) :
    (calculateStatusCounts requests).total = requests.length ∧
    (calculateStatusCounts requests).pending =
      (requests.filter (fun r => r.status == "pending")).length ∧
    (calculateStatusCounts requests).approved =
      (requests.filter (fun r => r.status == "approved")).length ∧
    (calculateStatusCounts requests).rejected =
      (requests.filter (fun r => r.status == "rejected")).length := by
  unfold calculateStatusCounts
  refine ⟨foldl_statusStep_total requests _, ?_, ?_, ?_⟩
  · simp [foldl_statusStep_pending]
  · simp [foldl_statusStep_approved]
  · simp [foldl_statusStep_rejected]

/-- C1: `calculateStatusCounts` returns a `StatusCount` whose total is
the length of the collection and whose pending/approved/rejected buckets
count exactly the requests with that status; a request with an
unrecognized status is counted in the total but in none of the buckets,
so pending+approved+rejected ≤ total; on the spec's four-element example
the result is pending 1, approved 2, rejected 1, total 4. -/
theorem calculateStatusCounts_spec :
    (∀ requests : List LeaveRequest,
      (calculateStatusCounts requests).total = requests.length ∧
      (calculateStatusCounts requests).pending =
        (requests.filter (fun r => r.status == "pending")).length ∧
      (calculateStatusCounts requests).approved =
        (requests.filter (fun r => r.status == "approved")).length ∧
      (calculateStatusCounts requests).rejected =
        (requests.filter (fun r => r.status == "rejected")).length ∧
      (calculateStatusCounts requests).pending + (calculateStatusCounts requests).approved
        + (calculateStatusCounts requests).rejected ≤ (calculateStatusCounts requests).total) ∧
    (∀ (r : LeaveRequest) (requests : List LeaveRequest),
      r.status ≠ "pending" → r.status ≠ "approved" → r.status ≠ "rejected" →
      (calculateStatusCounts (r :: requests)).total = requests.length + 1 ∧
      (calculateStatusCounts (r :: requests)).pending = (calculateStatusCounts requests).pending ∧
      (calculateStatusCounts (r :: requests)).approved = (calculateStatusCounts requests).approved ∧
      (calculateStatusCounts (r :: requests)).rejected = (calculateStatusCounts requests).rejected) ∧
    calculateStatusCounts exampleRequests =
      { pending := 1, approved := 2, rejected := 1, total := 4 } := by
  refine ⟨fun requests => ?_, fun r requests h1 h2 h3 => ?_, by decide⟩
  · obtain ⟨ht, hp, ha, hr⟩ := calculateStatusCounts_fields requests
    refine ⟨ht, hp, ha, hr, ?_⟩
    rw [ht, hp, ha, hr]
    exact count_three_le requests
  · obtain ⟨ht, hp, ha, hr⟩ := calculateStatusCounts_fields (r :: requests)
    obtain ⟨ht2, hp2, ha2, hr2⟩ := calculateStatusCounts_fields requests
    rw [ht, hp, ha, hr, hp2, ha2, hr2, List.filter_cons, List.filter_cons, List.filter_cons]
    simp [h1, h2, h3]

/-- Witness for C1 at the unrecognized status "sick". -/
theorem calculateStatusCounts_spec_witness :
    (calculateStatusCounts ({ id := 5, status := "sick" } :: exampleRequests)).total =
      exampleRequests.length + 1 ∧
    (calculateStatusCounts ({ id := 5, status := "sick" } :: exampleRequests)).pending =
      (calculateStatusCounts exampleRequests).pending := by
  have h := calculateStatusCounts_spec.2.1 { id := 5, status := "sick" } exampleRequests
    (by decide) (by decide) (by decide)
  exact ⟨h.1, h.2.1⟩

theorem fetchLeaveRequestsSettle_loading (res : Except String (List LeaveRequest)) (s : State) :
    (fetchLeaveRequestsSettle res s).loading = s.loading := by
  cases res <;> rfl

theorem fetchLeaveRequestsSettle_allStudents (res : Except String (List LeaveRequest)) (s : State) :
    (fetchLeaveRequestsSettle res s).allStudents = s.allStudents := by
  cases res <;> rfl

theorem fetchAllStudentsSettle_loading (res : Except String (List Student)) (s : State) :
    (fetchAllStudentsSettle res s).loading = s.loading := by
  cases res <;> rfl

theorem fetchAllStudentsSettle_leaveRequests (res : Except String (List Student)) (s : State) :
    (fetchAllStudentsSettle res s).leaveRequests = s.leaveRequests := by
  cases res <;> rfl

theorem fetchAllStudentsSettle_statusCounts (res : Except String (List Student)) (s : State) :
    (fetchAllStudentsSettle res s).statusCounts = s.statusCounts := by
  cases res <;> rfl

/-- C2: `fetchLeaveRequests` is a total state transformer (failure is
captured into state, never rethrown); on success it replaces the
collection with the fetched data and stores the recomputed counts; on
failure the resulting state has an empty collection, all-zero counts and
a non-null error message. -/
theorem fetchLeaveRequests_spec :
    (∀ (data : List LeaveRequest) (s : State),
      fetchLeaveRequests (Except.ok data) s =
        { s with error := none, leaveRequests := data, statusCounts := calculateStatusCounts data }) ∧
    (∀ (e : String) (s : State),
      (fetchLeaveRequests (Except.error e) s).leaveRequests = [] ∧
      (fetchLeaveRequests (Except.error e) s).statusCounts = zeroCounts ∧
      (fetchLeaveRequests (Except.error e) s).error = some leaveFetchErrMsg ∧
      (fetchLeaveRequests (Except.error e) s).error ≠ none) := by
  refine ⟨fun data s => rfl, fun e s => ⟨rfl, rfl, rfl, by simp [fetchLeaveRequests,
    fetchLeaveRequestsStart, fetchLeaveRequestsSettle]⟩⟩

/-- C3: when the remote update call fails, `updateLeaveStatus` sets the
generic error message and leaves the leave-request collection, the
student collection and the status counts exactly as they were. -/
theorem updateLeaveStatus_failure_atomic :
    ∀ (upd : LeaveStatusUpdate) (e : String)
      (lres : Except String (List LeaveRequest)) (sres : Except String (List Student))
      (ord : Bool) (s : State),
      (updateLeaveStatusRun upd (Except.error e) lres sres ord s).final.leaveRequests
        = s.leaveRequests ∧
      (updateLeaveStatusRun upd (Except.error e) lres sres ord s).final.allStudents
        = s.allStudents ∧
      (updateLeaveStatusRun upd (Except.error e) lres sres ord s).final.statusCounts
        = s.statusCounts ∧
      (updateLeaveStatusRun upd (Except.error e) lres sres ord s).final.error
        = some updateErrMsg := by
  intro upd e lres sres ord s
  exact ⟨rfl, rfl, rfl, rfl⟩

/-- C7: the single-slot error field is cleared synchronously at the start
of every `fetchLeaveRequests` and `fetchAllStudents` invocation, before
the remote result is known; the full operations factor through that
prologue. -/
theorem fetch_clears_error_first :
    ∀ s : State,
      (fetchLeaveRequestsStart s).error = none ∧
      (fetchAllStudentsStart s).error = none ∧
      (∀ res, fetchLeaveRequests res s = fetchLeaveRequestsSettle res (fetchLeaveRequestsStart s)) ∧
      (∀ res, fetchAllStudents res s = fetchAllStudentsSettle res (fetchAllStudentsStart s)) := by
  intro s
  exact ⟨rfl, rfl, fun res => rfl, fun res => rfl⟩

/-- C10: `useLeaveContext` throws exactly the documented error when the
context value is undefined and returns the container value unchanged
inside a provider. -/
theorem useLeaveContext_spec :
    useLeaveContext none = Except.error hookErrMsg ∧
    hookErrMsg = "useLeaveContext must be used within a LeaveProvider" ∧
    (∀ c : State, useLeaveContext (some c) = Except.ok c) :=
  ⟨rfl, rfl, fun _ => rfl⟩

theorem concurrentFetchStates_loading (lres : Except String (List LeaveRequest))
    (sres : Except String (List Student)) (ord : Bool) (s : State) :
    ∀ t ∈ concurrentFetchStates lres sres ord s, t.loading = s.loading := by
  intro t ht
  cases ord <;> simp [concurrentFetchStates] at ht <;>
    rcases ht with rfl | rfl | rfl | rfl <;>
    simp [fetchLeaveRequestsStart, fetchAllStudentsStart,
      fetchLeaveRequestsSettle_loading, fetchAllStudentsSettle_loading]

theorem concurrentFetchRun_loading (lres : Except String (List LeaveRequest))
    (sres : Except String (List Student)) (ord : Bool) (s : State) :
    (concurrentFetchRun lres sres ord s).loading = s.loading := by
  cases ord <;> simp [concurrentFetchRun, fetchLeaveRequestsStart, fetchAllStudentsStart,
    fetchLeaveRequestsSettle_loading, fetchAllStudentsSettle_loading]

theorem concurrentFetchRun_consistent (lres : Except String (List LeaveRequest))
    (sres : Except String (List Student)) (ord : Bool) (s : State) :
    consistentCounts (concurrentFetchRun lres sres ord s) := by
  cases ord <;> cases lres <;> cases sres <;> rfl

theorem updateSuccess_final_const (upd : LeaveStatusUpdate)
    (lres : Except String (List LeaveRequest)) (sres : Except String (List Student))
    (ord : Bool) (s sB : State) :
    (updateLeaveStatusRun upd (Except.ok ()) lres sres ord s).final
      = (updateLeaveStatusRun upd (Except.ok ()) lres sres ord sB).final := by
  cases ord <;> cases lres <;> cases sres <;> rfl

/-- C4: a successful `updateLeaveStatus` performs exactly one re-fetch of
the leave requests and one of the students, keeps the loading flag true
in every state observable while the operation is in flight, clears it
once settled, and running the same update again with the same remote
outcomes reaches the same final state. -/
theorem updateLeaveStatus_success_resync :
    ∀ (upd : LeaveStatusUpdate) (lres : Except String (List LeaveRequest))
      (sres : Except String (List Student)) (ord : Bool) (s : State),
      (updateLeaveStatusRun upd (Except.ok ()) lres sres ord s).events.count Event.fetchLeave = 1 ∧
      (updateLeaveStatusRun upd (Except.ok ()) lres sres ord s).events.count Event.fetchStudents = 1 ∧
      (∀ t ∈ (updateLeaveStatusRun upd (Except.ok ()) lres sres ord s).intermediates,
        t.loading = true) ∧
      (updateLeaveStatusRun upd (Except.ok ()) lres sres ord s).final.loading = false ∧
      (updateLeaveStatusRun upd (Except.ok ()) lres sres ord
          (updateLeaveStatusRun upd (Except.ok ()) lres sres ord s).final).final
        = (updateLeaveStatusRun upd (Except.ok ()) lres sres ord s).final := by
  intro upd lres sres ord s
  refine ⟨rfl, rfl, ?_, rfl, updateSuccess_final_const upd lres sres ord _ s⟩
  intro t ht
  simp only [updateLeaveStatusRun, List.mem_cons] at ht
  rcases ht with rfl | rfl | hmem
  · rfl
  · rfl
  · exact (concurrentFetchStates_loading lres sres ord _ t hmem).trans rfl

/-- Witness for C4: the first in-flight state of a concrete successful
update out of the mount state has the loading flag set. -/
theorem updateLeaveStatus_success_resync_witness :
    ({ initialState with loading := true } : State).loading = true :=
  (updateLeaveStatus_success_resync { leave_id := 1, status := "approved" }
      (Except.ok []) (Except.ok []) true initialState).2.2.1
    { initialState with loading := true } (by simp [updateLeaveStatusRun])

/-- C5: `initialFetch` sets loading and clears the error before both
fetches are issued, every state observable before the join completes has
loading true, and loading is false only in the settled state, whichever
fetch settles first and however each resolved. -/
theorem initialFetch_loading_protocol :
    ∀ (lres : Except String (List LeaveRequest)) (sres : Except String (List Student))
      (ord : Bool) (s : State),
      ({ s with loading := true, error := none } : State)
        ∈ (initialFetchRun lres sres ord s).intermediates ∧
      (initialFetchRun lres sres ord s).events = [Event.fetchLeave, Event.fetchStudents] ∧
      (∀ t ∈ (initialFetchRun lres sres ord s).intermediates, t.loading = true) ∧
      (initialFetchRun lres sres ord s).final.loading = false := by
  intro lres sres ord s
  refine ⟨?_, rfl, ?_, rfl⟩
  · simp [initialFetchRun]
  · intro t ht
    simp only [initialFetchRun, List.mem_cons] at ht
    rcases ht with rfl | rfl | hmem
    · rfl
    · rfl
    · exact (concurrentFetchStates_loading lres sres ord _ t hmem).trans rfl

/-- Witness for C5: the state right after the mount prologue of a
concrete initial fetch has loading set. -/
theorem initialFetch_loading_protocol_witness :
    ({ initialState with loading := true, error := none } : State).loading = true :=
  (initialFetch_loading_protocol (Except.ok []) (Except.error "down") false
      initialState).2.2.1
    { initialState with loading := true, error := none }
    (initialFetch_loading_protocol (Except.ok []) (Except.error "down") false
      initialState).1

/-- C6: the stored counts always equal `calculateStatusCounts` of the
stored collection: at mount, after any `fetchLeaveRequests`, and the
invariant is preserved by `fetchAllStudents`, by `updateLeaveStatus`
(either outcome) and by the initial fetch. -/
theorem statusCounts_consistent :
    consistentCounts initialState ∧
    (∀ (res : Except String (List LeaveRequest)) (s : State),
      consistentCounts (fetchLeaveRequests res s)) ∧
    (∀ (res : Except String (List Student)) (s : State),
      consistentCounts s → consistentCounts (fetchAllStudents res s)) ∧
    (∀ (upd : LeaveStatusUpdate) (updRes : Except String Unit)
      (lres : Except String (List LeaveRequest)) (sres : Except String (List Student))
      (ord : Bool) (s : State),
      consistentCounts s →
      consistentCounts (updateLeaveStatusRun upd updRes lres sres ord s).final) ∧
    (∀ (lres : Except String (List LeaveRequest)) (sres : Except String (List Student))
      (ord : Bool) (s : State),
      consistentCounts (initialFetchRun lres sres ord s).final) := by
  refine ⟨rfl, fun res s => ?_, fun res s h => ?_,
    fun upd updRes lres sres ord s h => ?_, fun lres sres ord s => ?_⟩
  · cases res <;> rfl
  · unfold consistentCounts at h ⊢
    cases res <;>
      simpa [fetchAllStudents, fetchAllStudentsStart, fetchAllStudentsSettle] using h
  · cases updRes with
    | ok u =>
        have hc := concurrentFetchRun_consistent lres sres ord
          { s with loading := true, error := none }
        unfold consistentCounts at hc ⊢
        simpa [updateLeaveStatusRun] using hc
    | error e =>
        unfold consistentCounts at h ⊢
        simpa [updateLeaveStatusRun] using h
  · have hc := concurrentFetchRun_consistent lres sres ord
      { s with loading := true, error := none }
    unfold consistentCounts at hc ⊢
    simpa [initialFetchRun] using hc

/-- Witness for C6: the invariant after a successful student fetch out of
the mount state. -/
theorem statusCounts_consistent_witness :
    consistentCounts (fetchAllStudents (Except.ok []) initialState) :=
  statusCounts_consistent.2.2.1 (Except.ok []) initialState statusCounts_consistent.1

/-- C8: with `fetchLeaveRequests` failing and `fetchAllStudents`
succeeding concurrently (both prologues before either settlement), the
settled error is the failing fetch's message — the last error written —
under either settlement order; the student slice holds the fetched data
uncorrupted; and the two settlements touch disjoint slices apart from
the shared error slot. -/
theorem concurrent_error_race :
    ∀ (e : String) (data : List Student) (ord : Bool) (s : State),
      (concurrentFetchRun (Except.error e) (Except.ok data) ord s).error
        = some leaveFetchErrMsg ∧
      (concurrentFetchRun (Except.error e) (Except.ok data) ord s).allStudents = data ∧
      (concurrentFetchRun (Except.error e) (Except.ok data) ord s).leaveRequests = [] ∧
      (concurrentFetchRun (Except.error e) (Except.ok data) ord s).statusCounts = zeroCounts ∧
      (∀ (res : Except String (List LeaveRequest)) (s2 : State),
        (fetchLeaveRequestsSettle res s2).allStudents = s2.allStudents ∧
        (fetchLeaveRequestsSettle res s2).loading = s2.loading) ∧
      (∀ (res : Except String (List Student)) (s2 : State),
        (fetchAllStudentsSettle res s2).leaveRequests = s2.leaveRequests ∧
        (fetchAllStudentsSettle res s2).statusCounts = s2.statusCounts ∧
        (fetchAllStudentsSettle res s2).loading = s2.loading) := by
  intro e data ord s
  refine ⟨?_, ?_, ?_, ?_,
    fun res s2 => ⟨fetchLeaveRequestsSettle_allStudents res s2,
      fetchLeaveRequestsSettle_loading res s2⟩,
    fun res s2 => ⟨fetchAllStudentsSettle_leaveRequests res s2,
      fetchAllStudentsSettle_statusCounts res s2,
      fetchAllStudentsSettle_loading res s2⟩⟩ <;> cases ord <;> rfl

/-- C9: every `leaveService` operation issues exactly one HTTP call and,
on failure, logs one line naming the operation and re-raises the
underlying failure unchanged, while on success it returns the parsed
response body unchanged and logs nothing. -/
theorem leaveService_spec :
    (∀ d, leaveService.getAllLeaveRequests (Except.ok d) =
      { result := Except.ok d, calls := [ApiCall.getAllLeaveRequests], logs := [] }) ∧
    (∀ e, leaveService.getAllLeaveRequests (Except.error e) =
      { result := Except.error e, calls := [ApiCall.getAllLeaveRequests],
        logs := ["Error fetching leave requests:"] }) ∧
    (∀ sid st d, leaveService.getLeaveHistory sid st (Except.ok d) =
      { result := Except.ok d, calls := [ApiCall.getLeaveHistory sid st], logs := [] }) ∧
    (∀ sid st e, leaveService.getLeaveHistory sid st (Except.error e) =
      { result := Except.error e, calls := [ApiCall.getLeaveHistory sid st],
        logs := ["Error fetching leave history for student " ++ sid ++ ":"] }) ∧
    (∀ nm st d, leaveService.getLeaveHistoryByName nm st (Except.ok d) =
      { result := Except.ok d, calls := [ApiCall.getLeaveHistoryByName nm st], logs := [] }) ∧
    (∀ nm st e, leaveService.getLeaveHistoryByName nm st (Except.error e) =
      { result := Except.error e, calls := [ApiCall.getLeaveHistoryByName nm st],
        logs := ["Error fetching leave history for student name " ++ nm ++ ":"] }) ∧
    (∀ lr d, leaveService.submitLeaveRequest lr (Except.ok d) =
      { result := Except.ok d, calls := [ApiCall.submitLeave lr], logs := [] }) ∧
    (∀ lr e, leaveService.submitLeaveRequest lr (Except.error e) =
      { result := Except.error e, calls := [ApiCall.submitLeave lr],
        logs := ["Error submitting leave request:"] }) ∧
    (∀ u d, leaveService.updateLeaveStatus u (Except.ok d) =
      { result := Except.ok d, calls := [ApiCall.updateLeaveStatus u], logs := [] }) ∧
    (∀ u e, leaveService.updateLeaveStatus u (Except.error e) =
      { result := Except.error e, calls := [ApiCall.updateLeaveStatus u],
        logs := ["Error updating leave status:"] }) ∧
    (∀ st d, leaveService.registerStudent st (Except.ok d) =
      { result := Except.ok d, calls := [ApiCall.registerStudent st], logs := [] }) ∧
    (∀ st e, leaveService.registerStudent st (Except.error e) =
      { result := Except.error e, calls := [ApiCall.registerStudent st],
        logs := ["Error registering student:"] }) ∧
    (∀ q d, leaveService.sendAIQuery q (Except.ok d) =
      { result := Except.ok d, calls := [ApiCall.aiQuery q], logs := [] }) ∧
    (∀ q e, leaveService.sendAIQuery q (Except.error e) =
      { result := Except.error e, calls := [ApiCall.aiQuery q],
        logs := ["Error sending AI query:"] }) ∧
    (∀ d, leaveService.getTotalStudents (Except.ok d) =
      { result := Except.ok d, calls := [ApiCall.getTotalStudents], logs := [] }) ∧
    (∀ e, leaveService.getTotalStudents (Except.error e) =
      { result := Except.error e, calls := [ApiCall.getTotalStudents],
        logs := ["Error fetching total students:"] }) ∧
    (∀ d, leaveService.getAllStudents (Except.ok d) =
      { result := Except.ok d, calls := [ApiCall.getAllStudents], logs := [] }) ∧
    (∀ e, leaveService.getAllStudents (Except.error e) =
      { result := Except.error e, calls := [ApiCall.getAllStudents],
        logs := ["Error fetching all students:"] }) :=
  ⟨fun _ => rfl, fun _ => rfl, fun _ _ _ => rfl, fun _ _ _ => rfl, fun _ _ _ => rfl,
   fun _ _ _ => rfl, fun _ _ => rfl, fun _ _ => rfl, fun _ _ => rfl, fun _ _ => rfl,
   fun _ _ => rfl, fun _ _ => rfl, fun _ _ => rfl, fun _ _ => rfl, fun _ => rfl,
   fun _ => rfl, fun _ => rfl, fun _ => rfl⟩
